import Mathlib

set_option maxRecDepth 40000

/-
Verification development for the Q-GOV daily brief generator
(`src/send_brief.py`).  The script fetches a JSON "brief" from a remote
inference service, renders it to an HTML e-mail body, and sends it over
SMTP.  Below we shallowly embed the data model and the pure parts of the
script (colour tables, the `build_html` renderer, the fence-stripping step
of `fetch_brief`, and the control flow of module start-up and `main`) and
prove the specification's claims about them.

Conventions of the embedding:
* a Python dict holding the brief becomes a structure with `Option` fields
  (`None`/absent key ↦ `none`); `d.get(k, v)` becomes `Option.getD`;
* the two module colour tables become association lists, `dict.get`
  becomes `List.lookup` + `Option.getD`;
* `datetime.now().strftime fmt` is an external library call; it is
  modelled by a `DateTime` record carrying the three formatted display
  strings the script requests;
* `json.loads` (an external library) is modelled as an abstract function
  `String → Option Brief`; `os.environ` as `String → Option String`;
* network effects are modelled by the list of outbound calls a run makes.
-/

/-- Result of the three `datetime.now().strftime(...)` calls the script makes
(lines 117, 249 and 279 of `send_brief.py`): `fullFmt` is
`"%A, %B %d, %Y"`, `genFmt` is `"%Y-%m-%d %H:%M UTC"`, `shortFmt` is
`"%B %d, %Y"`.  The strftime implementation itself is external library code. -/
structure DateTime where
  fullFmt : String
  genFmt : String
  shortFmt : String
deriving DecidableEq, Repr

/-- One value of the `THREAT_COLORS` table: a `{bg, border, text}` colour
triple (lines 84-89). -/
structure ThreatColor where
  bg : String
  border : String
  text : String
deriving DecidableEq, Repr

/-- Lines 78-83: `SIG_COLORS`, mapping a section significance to its accent
colour. -/
def SIG_COLORS : List (String × String) :=
  [("LOW", "#4a9eff"), ("MEDIUM", "#ffd700"), ("HIGH", "#ff8c00"), ("CRITICAL", "#ff4444")]

/-- Lines 84-89: `THREAT_COLORS`, mapping a threat level to its colour
triple. -/
def THREAT_COLORS : List (String × ThreatColor) :=
  [("LOW", ⟨"#e8f5e9", "#2e7d32", "#2e7d32"⟩),
   ("MODERATE", ⟨"#fff8e1", "#f9a825", "#f57f17"⟩),
   ("ELEVATED", ⟨"#fff3e0", "#e65100", "#bf360c"⟩),
   ("HIGH", ⟨"#ffebee", "#c62828", "#b71c1c"⟩)]

/-- One element of the brief's `sections` array (schema lines 52-62; the
renderer reads the fields at lines 131-155).  Every key may be absent. -/
structure Section where
  id : Option String := none
  domain : Option String := none
  headline : Option String := none
  body : Option String := none
  significance : Option String := none
  actors : Option (List String) := none
  sourceHint : Option String := none
deriving DecidableEq, Repr

/-- The brief record returned by the inference service (schema lines 46-65;
the renderer reads the fields throughout `build_html`).  Every key may be
absent. -/
structure Brief where
  date : Option String := none
  classification : Option String := none
  summary : Option String := none
  threatLevel : Option String := none
  threatRationale : Option String := none
  sections : Option (List Section) := none
  watchItems : Option (List String) := none
  analystNote : Option String := none
deriving DecidableEq, Repr

/-- Line 115: `threat = brief.get("threatLevel", "MODERATE")`. -/
def threatOf (brief : Brief) : String :=
  brief.threatLevel.getD "MODERATE"

/-- Line 116: `tc = THREAT_COLORS.get(threat, THREAT_COLORS["MODERATE"])`.
The second argument of the Python `dict.get` is the literal `"MODERATE"`
entry of the table. -/
def tcOf (threat : String) : ThreatColor :=
  (THREAT_COLORS.lookup threat).getD ⟨"#fff8e1", "#f9a825", "#f57f17"⟩

/-- Line 120: `levels = ["LOW", "MODERATE", "ELEVATED", "HIGH"]`. -/
def levels : List String := ["LOW", "MODERATE", "ELEVATED", "HIGH"]

/-- Line 121: `idx = levels.index(threat) if threat in levels else 1`. -/
def idxOf (threat : String) : Nat :=
  if threat ∈ levels then levels.indexOf threat else 1

/-- Lines 122-126: one `<td>` cell of the threat meter, for cell position `i`
given the current index `idx` and colour triple `tc`. -/
def meterCell (tc : ThreatColor) (idx i : Nat) : String :=
  "<td style=\"width:28px;height:10px;background:" ++
    (if i ≤ idx then tc.border else "#e0e0e0") ++
    ";border:1px solid " ++ (if i ≤ idx then tc.border else "#ccc") ++
    ";border-radius:2px;\"></td>"

/-- Lines 122-126: `meter_cells = "".join(... for i, _ in enumerate(levels))`. -/
def meter_cells (tc : ThreatColor) (idx : Nat) : String :=
  String.join ((List.range levels.length).map (meterCell tc idx))

/-- Line 127: `meter_html`. -/
def meter_html (tc : ThreatColor) (idx : Nat) : String :=
  "<table cellspacing=\"4\" style=\"display:inline-table;vertical-align:middle;\"><tr>" ++
    meter_cells tc idx ++ "</tr></table>"

/-- Line 132: `sig = s.get("significance", "MEDIUM")`. -/
def sigOf (s : Section ) : String :=
  s.significance.getD "MEDIUM"

/-- Line 133: `color = SIG_COLORS.get(sig, "#4a9eff")`. -/
def sigColorOf (s : Section ) : String :=
  (SIG_COLORS.lookup (sigOf s)).getD "#4a9eff"

/-- Lines 135-136: one actor pill of a section card. -/
def actorTag (a : String) : String :=
  "<span style=\"background:#f5f5f5;border:1px solid #ddd;border-radius:3px;padding:2px 8px;font-size:11px;color:#1565c0;font-family:monospace;\">" ++
    a ++ "</span>"

/-- Lines 134-138: `actors_html = " ".join(... for a in s.get("actors", []))`. -/
def actors_html (actors : List String) : String :=
  String.intercalate " " (actors.map actorTag)

/-- Template text of a section card before `{color}` (line 140). -/
def sc0 : String := "\n        <div style=\"border-left:4px solid "

/-- Template text of a section card between `{color}` and `{s.get('domain','')}` (lines 140-145). -/
def sc1 : String := ";background:#fafafa;padding:16px 18px;\n                    margin-bottom:14px;border-radius:0 4px 4px 0;\">\n          <div style=\"display:flex;justify-content:space-between;align-items:flex-start;margin-bottom:8px;\">\n            <div>\n              <div style=\"font-size:10px;color:#888;letter-spacing:2px;text-transform:uppercase;\n                          font-family:monospace;margin-bottom:4px;\">"

/-- Template text between the domain and the headline (lines 145-146). -/
def sc2 : String := "</div>\n              <div style=\"font-size:15px;font-weight:700;color:#1a1a1a;line-height:1.3;\">"

/-- Template text between the headline and the badge's first `{color}` (lines 146-148). -/
def sc3 : String := "</div>\n            </div>\n            <span style=\"background:"

/-- Template text between the badge's first and second `{color}` (line 148). -/
def sc4 : String := "22;border:1px solid "

/-- Template text between the badge's second and third `{color}` (line 148). -/
def sc5 : String := ";color:"

/-- Template text between the badge's third `{color}` and `{sig}` (lines 148-150). -/
def sc6 : String := ";\n                         font-family:monospace;font-size:10px;padding:3px 8px;\n                         letter-spacing:2px;white-space:nowrap;margin-left:12px;border-radius:3px;\">"

/-- Template text between `{sig}` and `{s.get('body','')}` (lines 150-152). -/
def sc7 : String := "</span>\n          </div>\n          <p style=\"color:#444;font-size:13px;line-height:1.75;margin:0 0 10px 0;\">"

/-- Template text between the body and `{actors_html}` (lines 152-154). -/
def sc8 : String := "</p>\n          <div style=\"display:flex;justify-content:space-between;align-items:center;flex-wrap:wrap;gap:6px;\">\n            <div style=\"display:flex;gap:6px;flex-wrap:wrap;\">"

/-- Template text between `{actors_html}` and `{s.get('sourceHint','')}` (lines 154-155). -/
def sc9 : String := "</div>\n            <span style=\"color:#aaa;font-size:11px;font-family:monospace;\">SRC: "

/-- Template text closing a section card (lines 155-157). -/
def sc10 : String := "</span>\n          </div>\n        </div>"

/-- Lines 139-157: the card appended to `sections_html` for one section `s`. -/
def sectionCard (s : Section ) : String :=
  let sig := sigOf s
  let color := sigColorOf s
  sc0 ++ color ++ sc1 ++ s.domain.getD "" ++ sc2 ++ s.headline.getD "" ++ sc3 ++
    color ++ sc4 ++ color ++ sc5 ++ color ++ sc6 ++ sig ++ sc7 ++ s.body.getD "" ++
    sc8 ++ actors_html (s.actors.getD []) ++ sc9 ++ s.sourceHint.getD "" ++ sc10

/-- Lines 130-157: the `sections_html` accumulator loop
(`sections_html = ""` then `sections_html += f"""..."""` per section). -/
def sections_html (ss : List Section ) : String :=
  ss.foldl (fun acc s => acc ++ sectionCard s) ""

/-- Lines 161-163: one watch-item row. -/
def watchRow (item : String) : String :=
  "<div style=\"display:flex;gap:10px;margin-bottom:8px;\"><span style=\"color:#f57f17;font-weight:700;flex-shrink:0;\">→</span><span style=\"color:#555;font-size:13px;line-height:1.6;\">" ++
    item ++ "</span></div>"

/-- Lines 160-165: `watch_items_html = "".join(... for item in brief.get("watchItems", []))`. -/
def watch_items_html (items : List String) : String :=
  String.join (items.map watchRow)

/-- Template chunk of `build_html` before the first `{date_str}` (lines 167-172). -/
def tpl0 : String := "<!DOCTYPE html>\n<html lang=\"en\">\n<head>\n<meta charset=\"UTF-8\">\n<meta name=\"viewport\" content=\"width=device-width,initial-scale=1.0\">\n<title>Q-GOV Daily Brief — "

/-- Template chunk between the first and second `{date_str}` (lines 172-184). -/
def tpl1 : String := "</title>\n</head>\n<body style=\"margin:0;padding:0;background:#f0f2f0;font-family:Georgia,\x27Times New Roman\x27,serif;\">\n<div style=\"max-width:720px;margin:24px auto;background:#fff;border:1px solid #ddd;border-radius:4px;overflow:hidden;\">\n\n  <!-- Header -->\n  <div style=\"background:#0a1a0a;padding:24px 32px;border-bottom:3px solid #2e7d32;\">\n    <div style=\"font-family:monospace;font-size:10px;color:#4a7a4a;letter-spacing:4px;\n                text-transform:uppercase;margin-bottom:6px;\">◆ Quantum Intelligence Monitor ◆</div>\n    <div style=\"font-family:monospace;font-size:24px;font-weight:700;color:#00c853;\n                letter-spacing:3px;\">Q-GOV DAILY BRIEF</div>\n    <div style=\"font-family:monospace;font-size:11px;color:#4a7a4a;margin-top:6px;\n                letter-spacing:2px;\">"

/-- Template chunk between the second `{date_str}` and the classification (line 184). -/
def tpl2 : String := " &nbsp;|&nbsp; "

/-- Template chunk between the classification and `{tc['bg']}` (lines 184-190). -/
def tpl3 : String := "</div>\n  </div>\n\n  <div style=\"padding:28px 32px;\">\n\n    <!-- Threat Posture -->\n    <div style=\"background:"

/-- Template chunk between `{tc['bg']}` and `{tc['border']}` (line 190). -/
def tpl4 : String := ";border:1px solid "

/-- Template chunk between `{tc['border']}` and the first `{tc['text']}` (lines 190-194). -/
def tpl5 : String := ";border-radius:4px;\n                padding:16px 20px;margin-bottom:24px;display:flex;\n                justify-content:space-between;align-items:center;flex-wrap:wrap;gap:12px;\">\n      <div>\n        <div style=\"font-family:monospace;font-size:10px;color:"

/-- Template chunk between the first `{tc['text']}` and `{meter_html}` (lines 194-196). -/
def tpl6 : String := ";\n                    letter-spacing:3px;margin-bottom:8px;\">QUANTUM THREAT POSTURE</div>\n        "

/-- Template chunk between `{meter_html}` and the second `{tc['text']}` (lines 196-199). -/
def tpl7 : String := "\n        &nbsp;&nbsp;\n        <span style=\"font-family:monospace;font-size:13px;font-weight:700;\n                     color:"

/-- Template chunk between the second `{tc['text']}` and `{threat}` (line 199). -/
def tpl8 : String := ";letter-spacing:2px;\">"

/-- Template chunk between `{threat}` and `{brief.get('threatRationale','')}` (lines 199-203). -/
def tpl9 : String := "</span>\n      </div>\n      <div style=\"max-width:340px;\">\n        <div style=\"font-family:monospace;font-size:10px;color:#888;letter-spacing:2px;margin-bottom:4px;\">RATIONALE</div>\n        <div style=\"font-size:12px;color:#555;line-height:1.6;\">"

/-- Template chunk between the rationale and `{brief.get('summary','')}` (lines 203-214). -/
def tpl10 : String := "</div>\n      </div>\n    </div>\n\n    <!-- Executive Summary -->\n    <div style=\"background:#f8faf8;border-top:3px solid #2e7d32;border:1px solid #e0e8e0;\n                border-radius:4px;padding:18px 20px;margin-bottom:28px;\">\n      <div style=\"font-family:monospace;font-size:10px;color:#4a7a4a;letter-spacing:4px;margin-bottom:10px;\">\n        EXECUTIVE SUMMARY\n      </div>\n      <p style=\"color:#333;font-size:14px;line-height:1.85;margin:0;font-style:italic;\">\n        "

/-- Template chunk between the summary and the section count (lines 214-220). -/
def tpl11 : String := "\n      </p>\n    </div>\n\n    <!-- Section label -->\n    <div style=\"font-family:monospace;font-size:10px;color:#aaa;letter-spacing:4px;margin-bottom:12px;\">\n      DOMAIN INTELLIGENCE // "

/-- Template chunk between the section count and `{sections_html}` (lines 220-224). -/
def tpl12 : String := " ITEMS\n    </div>\n\n    <!-- Sections -->\n    "

/-- Template chunk between `{sections_html}` and `{watch_items_html}` (lines 224-232). -/
def tpl13 : String := "\n\n    <!-- Watch Items -->\n    <div style=\"background:#fffde7;border-left:4px solid #f9a825;border-radius:0 4px 4px 0;\n                padding:16px 20px;margin-top:24px;margin-bottom:20px;\">\n      <div style=\"font-family:monospace;font-size:10px;color:#f57f17;letter-spacing:4px;margin-bottom:12px;\">\n        ◈ WATCH ITEMS // NEXT 72 HOURS\n      </div>\n      "

/-- Template chunk between `{watch_items_html}` and `{brief.get('analystNote','')}` (lines 232-241). -/
def tpl14 : String := "\n    </div>\n\n    <!-- Analyst Note -->\n    <div style=\"background:#e8eaf6;border-left:4px solid #3949ab;border-radius:0 4px 4px 0;\n                padding:16px 20px;margin-bottom:24px;\">\n      <div style=\"font-family:monospace;font-size:10px;color:#3949ab;letter-spacing:4px;margin-bottom:10px;\">\n        ANALYST NOTE\n      </div>\n      <p style=\"color:#333;font-size:13px;line-height:1.8;margin:0;\">"

/-- Template chunk between the analyst note and the footer timestamp (lines 241-249). -/
def tpl15 : String := "</p>\n    </div>\n\n  </div>\n\n  <!-- Footer -->\n  <div style=\"background:#0a1a0a;padding:14px 32px;text-align:center;\">\n    <div style=\"font-family:monospace;font-size:10px;color:#2a4a2a;letter-spacing:2px;\">\n      GENERATED "

/-- Template chunk closing the document after the footer timestamp (lines 249-256). -/
def tpl16 : String := " &nbsp;|&nbsp;\n      OPEN SOURCE INTELLIGENCE ONLY &nbsp;|&nbsp; NOT FOR REDISTRIBUTION\n    </div>\n  </div>\n\n</div>\n</body>\n</html>"

/-- Lines 114-256: `build_html(brief)`.  The ambient wall-clock time (Python
reads it with two `datetime.now()` calls inside the function) is passed as
`now`. -/
def build_html (now : DateTime) (brief : Brief) : String :=
  let threat := threatOf brief
  let tc := tcOf threat
  let date_str := now.fullFmt
  let idx := idxOf threat
  tpl0 ++ date_str ++ tpl1 ++ date_str ++ tpl2 ++ brief.classification.getD "UNCLASSIFIED" ++
    tpl3 ++ tc.bg ++ tpl4 ++ tc.border ++ tpl5 ++ tc.text ++ tpl6 ++ meter_html tc idx ++
    tpl7 ++ tc.text ++ tpl8 ++ threat ++ tpl9 ++ brief.threatRationale.getD "" ++
    tpl10 ++ brief.summary.getD "" ++ tpl11 ++ toString (brief.sections.getD []).length ++
    tpl12 ++ sections_html (brief.sections.getD []) ++ tpl13 ++
    watch_items_html (brief.watchItems.getD []) ++ tpl14 ++ brief.analystNote.getD "" ++
    tpl15 ++ now.genFmt ++ tpl16

/-- Python `str.replace(pat, "")` for a non-empty pattern `p :: ps`:
scan left to right, delete each non-overlapping occurrence, and continue
scanning after the deleted occurrence (line 109 uses it twice). -/
def removeAll (p : Char) (ps : List Char) (l : List Char) : List Char :=
  match l with
  | [] => []
  | c :: cs =>
    if (p :: ps).isPrefixOf (c :: cs) then removeAll p ps (cs.drop ps.length)
    else c :: removeAll p ps cs
termination_by l.length
decreasing_by
  · simp only [List.length_drop, List.length_cons]
    omega
  · simp

/-- Whitespace recognised by Python `str.strip()` (for the ASCII range). -/
def pyIsSpace (c : Char) : Bool :=
  c = ' ' || c = '\t' || c = '\n' || c = '\x0d' || c = '\x0b' || c = '\x0c'

/-- Python `str.strip()`: drop whitespace from both ends. -/
def pyStrip (l : List Char) : List Char :=
  ((l.dropWhile pyIsSpace).reverse.dropWhile pyIsSpace).reverse

/-- Line 109: `clean = full_text.replace("```json", "").replace("```", "").strip()`. -/
def cleanText (full_text : String) : String :=
  String.mk (pyStrip (removeAll '`' ['`', '`']
    (removeAll '`' ['`', '`', 'j', 's', 'o', 'n'] full_text.data)))

/-- Decides whether `pat` occurs as a contiguous substring of `l`. -/
def occursIn (pat l : List Char) : Bool :=
  match l with
  | [] => pat.isEmpty
  | c :: cs => pat.isPrefixOf (c :: cs) || occursIn pat cs

/-- One outbound network call of a run: the inference request issued inside
`fetch_brief` (lines 96-102) or the SMTP transmission issued by
`send_email` (lines 268-270). -/
inductive NetCall where
  | inference : NetCall
  | smtpSend : (rcpt subject htmlBody : String) → NetCall
deriving DecidableEq, Repr

/-- Tests whether a network call is the SMTP send. -/
def isSend : NetCall → Bool
  | NetCall.smtpSend _ _ _ => true
  | NetCall.inference => false

/-- Line 16: the fixed recipient address. -/
def RECIPIENT_EMAIL : String := "villano@ionq.co"

/-- The module-level configuration read at import time (lines 16-19). -/
structure Config where
  SENDER_EMAIL : String
  GMAIL_APP_PASS : String
  ANTHROPIC_KEY : String
deriving DecidableEq, Repr

/-- Lines 17-19: the three `os.environ[...]` subscriptions evaluated when the
module loads.  A missing key raises `KeyError` at start-up, before any other
code runs; that fault is the `Except.error` branch. -/
def loadConfig (env : String → Option String) : Except String Config :=
  match env "GMAIL_USER" with
  | none => Except.error "KeyError: GMAIL_USER"
  | some sender =>
    match env "GMAIL_APP_PASSWORD" with
    | none => Except.error "KeyError: GMAIL_APP_PASSWORD"
    | some pass =>
      match env "ANTHROPIC_API_KEY" with
      | none => Except.error "KeyError: ANTHROPIC_API_KEY"
      | some key => Except.ok ⟨sender, pass, key⟩

/-- The ambient world a run observes: the process environment, the
concatenated text blocks of the inference response (lines 105-107), the
behaviour of `json.loads` on a cleaned text (`none` models a raised
`JSONDecodeError`), and the wall-clock time. -/
structure World where
  env : String → Option String
  responseText : String
  loads : String → Option Brief
  now : DateTime

/-- Lines 92-110, after the network call: strip fences from the concatenated
response text and parse it; a parse failure is a raised exception. -/
def fetch_brief (w : World) : Except String Brief :=
  let clean := cleanText w.responseText
  match w.loads clean with
  | some brief => Except.ok brief
  | none => Except.error ("json.decoder.JSONDecodeError: " ++ clean)

/-- Lines 275-285 plus module start-up: the whole run.  Returns the ordered
trace of outbound network calls made, and the outcome (an uncaught exception
is `Except.error`).  Module loading (`loadConfig`) precedes `main`; inside
`main`, `fetch_brief` makes the inference call, then the HTML is rendered
and sent. -/
def runProcess (w : World) : List NetCall × Except String Unit :=
  match loadConfig w.env with
  | Except.error e => ([], Except.error e)
  | Except.ok _ =>
    match fetch_brief w with
    | Except.error e => ([NetCall.inference], Except.error e)
    | Except.ok brief =>
      let html := build_html w.now brief
      let threat := brief.threatLevel.getD "MODERATE"
      let subject := "Q-GOV Quantum Brief [" ++ threat ++ "] — " ++ w.now.shortFmt
      ([NetCall.inference, NetCall.smtpSend RECIPIENT_EMAIL subject html], Except.ok ())

/-! Helper lemmas shared by the claim theorems. -/

lemma str_foldl_append (xs : List String) (x a : String) :
    xs.foldl (fun r s => r ++ s) (a ++ x) = a ++ xs.foldl (fun r s => r ++ s) x := by
  induction xs generalizing x with
  | nil => rfl
  | cons y ys ih => simp only [List.foldl_cons, String.append_assoc, ih]

lemma str_join_cons (x : String) (xs : List String) :
    String.join (x :: xs) = x ++ String.join xs := by
  have h := str_foldl_append xs "" x
  simpa [String.join, String.append_empty, String.empty_append] using h

/-- The `+=` loop of lines 130-157 concatenates exactly one card per section,
in input order. -/
lemma sections_html_eq_join (ss : List Section ) :
    sections_html ss = String.join (ss.map sectionCard) := by
  have key : ∀ (ts : List Section ) (a : String),
      ts.foldl (fun acc s => acc ++ sectionCard s) a = a ++ String.join (ts.map sectionCard) := by
    intro ts
    induction ts with
    | nil => intro a; simp [String.join, String.append_empty]
    | cons s rest ih =>
      intro a
      simp only [List.foldl_cons, List.map_cons, str_join_cons, ih, String.append_assoc]
  have h := key ss ""
  simpa [String.empty_append] using h

lemma lookup_threat_eq_none {T : String} (h : T ∉ levels) :
    THREAT_COLORS.lookup T = none := by
  simp only [levels, List.mem_cons, List.not_mem_nil, or_false, not_or] at h
  obtain ⟨h1, h2, h3, h4⟩ := h
  simp [THREAT_COLORS, List.lookup, beq_eq_false_iff_ne.mpr h1, beq_eq_false_iff_ne.mpr h2,
    beq_eq_false_iff_ne.mpr h3, beq_eq_false_iff_ne.mpr h4]

lemma tcOf_not_mem {T : String} (h : T ∉ levels) :
    tcOf T = ⟨"#fff8e1", "#f9a825", "#f57f17"⟩ := by
  simp [tcOf, lookup_threat_eq_none h]

lemma idxOf_not_mem {T : String} (h : T ∉ levels) : idxOf T = 1 := by
  simp [idxOf, h]

lemma idxOf_mem {T : String} (h : T ∈ levels) : idxOf T = levels.indexOf T := by
  simp [idxOf, h]

/-- Keys of `SIG_COLORS` (the significance enumeration). -/
def sigKeys : List String := ["LOW", "MEDIUM", "HIGH", "CRITICAL"]

lemma lookup_sig_eq_none {S : String} (h : S ∉ sigKeys) :
    SIG_COLORS.lookup S = none := by
  simp only [sigKeys, List.mem_cons, List.not_mem_nil, or_false, not_or] at h
  obtain ⟨h1, h2, h3, h4⟩ := h
  simp [SIG_COLORS, List.lookup, beq_eq_false_iff_ne.mpr h1, beq_eq_false_iff_ne.mpr h2,
    beq_eq_false_iff_ne.mpr h3, beq_eq_false_iff_ne.mpr h4]

lemma suffix_append_right {α : Type} (l₁ : List α) {l₂ l₃ : List α} (h : l₃ <:+ l₂) :
    l₃ <:+ l₁ ++ l₂ :=
  h.trans (List.suffix_append l₁ l₂)

/-- Everything `build_html` emits before the `{threat}` interpolation of
line 199. -/
def threatPre (now : DateTime) (brief : Brief) : String :=
  tpl0 ++ now.fullFmt ++ tpl1 ++ now.fullFmt ++ tpl2 ++ brief.classification.getD "UNCLASSIFIED" ++
    tpl3 ++ (tcOf (threatOf brief)).bg ++ tpl4 ++ (tcOf (threatOf brief)).border ++ tpl5 ++
    (tcOf (threatOf brief)).text ++ tpl6 ++ meter_html (tcOf (threatOf brief)) (idxOf (threatOf brief)) ++
    tpl7 ++ (tcOf (threatOf brief)).text ++ tpl8

/-- Everything `build_html` emits after the `{threat}` interpolation of
line 199. -/
def threatPost (now : DateTime) (brief : Brief) : String :=
  tpl9 ++ brief.threatRationale.getD "" ++ tpl10 ++ brief.summary.getD "" ++ tpl11 ++
    toString (brief.sections.getD []).length ++ tpl12 ++ sections_html (brief.sections.getD []) ++
    tpl13 ++ watch_items_html (brief.watchItems.getD []) ++ tpl14 ++ brief.analystNote.getD "" ++
    tpl15 ++ now.genFmt ++ tpl16

lemma build_html_threat_split (now : DateTime) (brief : Brief) :
    build_html now brief = threatPre now brief ++ threatOf brief ++ threatPost now brief := by
  simp [build_html, threatPre, threatPost, String.append_assoc]

/-- Everything `build_html` emits before the meter cells of line 196
(up to and including the opening `<table ...><tr>` of line 127). -/
def meterPre (now : DateTime) (brief : Brief) : String :=
  tpl0 ++ now.fullFmt ++ tpl1 ++ now.fullFmt ++ tpl2 ++ brief.classification.getD "UNCLASSIFIED" ++
    tpl3 ++ (tcOf (threatOf brief)).bg ++ tpl4 ++ (tcOf (threatOf brief)).border ++ tpl5 ++
    (tcOf (threatOf brief)).text ++ tpl6 ++
    "<table cellspacing=\"4\" style=\"display:inline-table;vertical-align:middle;\"><tr>"

/-- Everything `build_html` emits after the meter cells of line 196
(starting with the closing `</tr></table>` of line 127). -/
def meterPost (now : DateTime) (brief : Brief) : String :=
  "</tr></table>" ++ tpl7 ++ (tcOf (threatOf brief)).text ++ tpl8 ++ threatOf brief ++
    threatPost now brief

lemma build_html_meter_split (now : DateTime) (brief : Brief) :
    build_html now brief =
      meterPre now brief ++ meter_cells (tcOf (threatOf brief)) (idxOf (threatOf brief)) ++
        meterPost now brief := by
  simp [build_html, meterPre, meterPost, threatPost, meter_html, String.append_assoc]

/-- Everything `build_html` emits before the `{sections_html}` interpolation
of line 224. -/
def secPre (now : DateTime) (brief : Brief) : String :=
  threatPre now brief ++ threatOf brief ++ tpl9 ++ brief.threatRationale.getD "" ++ tpl10 ++
    brief.summary.getD "" ++ tpl11 ++ toString (brief.sections.getD []).length ++ tpl12

/-- Everything `build_html` emits after the `{sections_html}` interpolation
of line 224. -/
def secPost (now : DateTime) (brief : Brief) : String :=
  tpl13 ++ watch_items_html (brief.watchItems.getD []) ++ tpl14 ++ brief.analystNote.getD "" ++
    tpl15 ++ now.genFmt ++ tpl16

lemma build_html_sections_split (now : DateTime) (brief : Brief) :
    build_html now brief =
      secPre now brief ++ sections_html (brief.sections.getD []) ++ secPost now brief := by
  simp [build_html, secPre, secPost, threatPre, String.append_assoc]

/-- Everything `build_html` emits before the `{watch_items_html}`
interpolation of line 232. -/
def watchPre (now : DateTime) (brief : Brief) : String :=
  secPre now brief ++ sections_html (brief.sections.getD []) ++ tpl13

/-- Everything `build_html` emits after the `{watch_items_html}`
interpolation of line 232. -/
def watchPost (now : DateTime) (brief : Brief) : String :=
  tpl14 ++ brief.analystNote.getD "" ++ tpl15 ++ now.genFmt ++ tpl16

lemma build_html_watch_split (now : DateTime) (brief : Brief) :
    build_html now brief =
      watchPre now brief ++ watch_items_html (brief.watchItems.getD []) ++ watchPost now brief := by
  simp [build_html, watchPre, watchPost, secPre, threatPre, String.append_assoc]

/-- Everything a section card emits before the `{sig}` badge text of
line 150. -/
def badgePre (s : Section ) : String :=
  sc0 ++ sigColorOf s ++ sc1 ++ s.domain.getD "" ++ sc2 ++ s.headline.getD "" ++ sc3 ++
    sigColorOf s ++ sc4 ++ sigColorOf s ++ sc5 ++ sigColorOf s ++ sc6

/-- Everything a section card emits after the `{sig}` badge text of
line 150. -/
def badgePost (s : Section ) : String :=
  sc7 ++ s.body.getD "" ++ sc8 ++ actors_html (s.actors.getD []) ++ sc9 ++
    s.sourceHint.getD "" ++ sc10

lemma sectionCard_badge_split (s : Section ) :
    sectionCard s = badgePre s ++ sigOf s ++ badgePost s := by
  simp [sectionCard, badgePre, badgePost, String.append_assoc]

/-- Everything a section card emits before the `{actors_html}` interpolation
of line 154. -/
def actorsPre (s : Section ) : String :=
  badgePre s ++ sigOf s ++ sc7 ++ s.body.getD "" ++ sc8

/-- Everything a section card emits after the `{actors_html}` interpolation
of line 154. -/
def actorsPost (s : Section ) : String :=
  sc9 ++ s.sourceHint.getD "" ++ sc10

lemma sectionCard_actors_split (s : Section ) :
    sectionCard s = actorsPre s ++ actors_html (s.actors.getD []) ++ actorsPost s := by
  simp [sectionCard, actorsPre, actorsPost, badgePre, String.append_assoc]

/-- A fixed sample timestamp used by the witness theorems. -/
def sampleNow : DateTime :=
  ⟨"Sunday, October 12, 2025", "2025-10-12 06:00 UTC", "October 12, 2025"⟩

/-- A second sample timestamp: same two display strings that `build_html`
uses, different subject-line string. -/
def sampleNow2 : DateTime :=
  ⟨"Sunday, October 12, 2025", "2025-10-12 06:00 UTC", "a different display"⟩

/-- The empty brief: every key absent. -/
def emptyBrief : Brief := {}

/-- A brief whose `threatLevel` is an unrecognized label. -/
def purpleBrief : Brief := { threatLevel := some "PURPLE" }

/-- A brief whose `threatLevel` is `"HIGH"`. -/
def highBrief : Brief := { threatLevel := some "HIGH" }

/-- Follows the spec's words ("cells at or before the index filled with the
threat's border colour"): a filled meter cell. -/
def specFilledCell (border : String) : String :=
  "<td style=\"width:28px;height:10px;background:" ++ border ++ ";border:1px solid " ++
    border ++ ";border-radius:2px;\"></td>"

/-- Follows the spec's words ("cells after left neutral/gray"): a neutral
meter cell. -/
def specNeutralCell : String :=
  "<td style=\"width:28px;height:10px;background:#e0e0e0;border:1px solid #ccc;border-radius:2px;\"></td>"

/-- C3: a missing `threatLevel` is treated as `MODERATE` (meter index 1,
MODERATE colour triple, output equal to that for an explicit `"MODERATE"`),
and an unrecognized `threatLevel` also falls back to meter index 1 and the
MODERATE colour triple; neither case faults. -/
theorem threat_default_moderate (now : DateTime) (b : Brief) :
    (b.threatLevel = none →
      threatOf b = "MODERATE" ∧ idxOf (threatOf b) = 1 ∧
      tcOf (threatOf b) = ⟨"#fff8e1", "#f9a825", "#f57f17"⟩ ∧
      build_html now b = build_html now { b with threatLevel := some "MODERATE" }) ∧
    (∀ T, b.threatLevel = some T → T ∉ levels →
      idxOf (threatOf b) = 1 ∧
      tcOf (threatOf b) = ⟨"#fff8e1", "#f9a825", "#f57f17"⟩) := by
  constructor
  · intro h
    have ht : threatOf b = "MODERATE" := by simp [threatOf, h]
    refine ⟨ht, ?_, ?_, ?_⟩
    · rw [ht]; decide
    · rw [ht]; decide
    · simp [build_html, threatOf, h]
  · intro T hT hmem
    have ht : threatOf b = T := by simp [threatOf, hT]
    rw [ht]
    exact ⟨idxOf_not_mem hmem, tcOf_not_mem hmem⟩

/-- Witness for C3 at two concrete briefs: one with the key absent, one with
the unrecognized label `"PURPLE"`. -/
theorem threat_default_moderate_witness :
    (threatOf emptyBrief = "MODERATE" ∧ idxOf (threatOf emptyBrief) = 1 ∧
      tcOf (threatOf emptyBrief) = ⟨"#fff8e1", "#f9a825", "#f57f17"⟩ ∧
      build_html sampleNow emptyBrief =
        build_html sampleNow { emptyBrief with threatLevel := some "MODERATE" }) ∧
    (idxOf (threatOf purpleBrief) = 1 ∧
      tcOf (threatOf purpleBrief) = ⟨"#fff8e1", "#f9a825", "#f57f17"⟩) :=
  ⟨(threat_default_moderate sampleNow emptyBrief).1 rfl,
   (threat_default_moderate sampleNow purpleBrief).2 "PURPLE" rfl (by decide)⟩

/-- C7: `build_html` is a pure function of the brief and the two display
strings it asks the clock for; two runs whose timestamps format identically
(in particular, two runs at the same timestamp) yield byte-identical HTML,
so the clock never selects logic or content. -/
theorem build_html_deterministic (b : Brief) (t1 t2 : DateTime)
    (h1 : t1.fullFmt = t2.fullFmt) (h2 : t1.genFmt = t2.genFmt) :
    build_html t1 b = build_html t2 b := by
  simp [build_html, h1, h2]

/-- Witness for C7: two distinct timestamp records with equal display
strings render the empty brief identically. -/
theorem build_html_deterministic_witness :
    build_html sampleNow emptyBrief = build_html sampleNow2 emptyBrief :=
  build_html_deterministic emptyBrief sampleNow sampleNow2 rfl rfl

/-- C2: for a recognized `threatLevel` at enumeration index `i`, the meter
of `build_html` consists of exactly four cells; cell `j` is filled with
that level's border colour when `j ≤ i` and is neutral gray otherwise, so
exactly the first `i + 1` cells are filled. -/
theorem threat_meter_monotonic (T : String) (hT : T ∈ levels) :
    ((List.range levels.length).map (meterCell (tcOf T) (levels.indexOf T))).length = 4 ∧
    (∀ j, j < 4 → meterCell (tcOf T) (levels.indexOf T) j =
      if j ≤ levels.indexOf T then specFilledCell (tcOf T).border else specNeutralCell) ∧
    ((List.range 4).filter (fun j => j ≤ levels.indexOf T)).length = levels.indexOf T + 1 ∧
    levels.indexOf T < 4 ∧
    (∀ (now : DateTime) (b : Brief), b.threatLevel = some T →
      build_html now b = meterPre now b ++
        String.join ((List.range levels.length).map (meterCell (tcOf T) (levels.indexOf T))) ++
        meterPost now b) := by
  refine ⟨by simp [levels], ?_, ?_, ?_, ?_⟩
  · intro j hj
    by_cases h : j ≤ levels.indexOf T <;>
      simp [meterCell, specFilledCell, specNeutralCell, h]
  · fin_cases hT <;> decide
  · fin_cases hT <;> decide
  · intro now b hb
    have ht : threatOf b = T := by simp [threatOf, hb]
    have hs := build_html_meter_split now b
    rw [hs, ht, idxOf_mem hT]
    simp [meter_cells]

/-- Witness for C2 at `threatLevel = "HIGH"` (index 3): the meter region of
the output and the fill state of the last cell. -/
theorem threat_meter_monotonic_witness :
    build_html sampleNow highBrief = meterPre sampleNow highBrief ++
      String.join ((List.range levels.length).map (meterCell (tcOf "HIGH") (levels.indexOf "HIGH"))) ++
      meterPost sampleNow highBrief ∧
    meterCell (tcOf "HIGH") (levels.indexOf "HIGH") 3 = specFilledCell (tcOf "HIGH").border := by
  constructor
  · exact (threat_meter_monotonic "HIGH" (by decide)).2.2.2.2 sampleNow highBrief rfl
  · have h := (threat_meter_monotonic "HIGH" (by decide)).2.1 3 (by decide)
    have e : levels.indexOf "HIGH" = 3 := by decide
    rw [e] at h
    simpa using h

/-- A section whose `significance` is an unrecognized label. -/
def novelSection : Section := { significance := some "NOVEL" }

/-- A section with every key absent. -/
def bareSection : Section := {}

/-- C10: an unrecognized `threatLevel` is rendered verbatim in the threat
posture label while its colours and meter index fall back to the defaults
(MODERATE triple, index 1); an unrecognized `significance` is rendered
verbatim in the badge while the accent colour falls back to the default
`"#4a9eff"`. -/
theorem raw_labels_rendered (now : DateTime) (b : Brief) :
    (∀ T, b.threatLevel = some T → T ∉ levels →
      build_html now b = threatPre now b ++ T ++ threatPost now b ∧
      tcOf (threatOf b) = ⟨"#fff8e1", "#f9a825", "#f57f17"⟩ ∧
      idxOf (threatOf b) = 1) ∧
    (∀ (s : Section ) (S : String), s.significance = some S → S ∉ sigKeys →
      sectionCard s = badgePre s ++ S ++ badgePost s ∧
      sigColorOf s = "#4a9eff") := by
  constructor
  · intro T hT hmem
    have ht : threatOf b = T := by simp [threatOf, hT]
    refine ⟨?_, ?_, ?_⟩
    · have hsp := build_html_threat_split now b
      rwa [ht] at hsp
    · rw [ht]; exact tcOf_not_mem hmem
    · rw [ht]; exact idxOf_not_mem hmem
  · intro s S hS hmem
    have hs : sigOf s = S := by simp [sigOf, hS]
    refine ⟨?_, ?_⟩
    · have hsp := sectionCard_badge_split s
      rwa [hs] at hsp
    · simp [sigColorOf, hs, lookup_sig_eq_none hmem]

/-- Witness for C10 at the unrecognized labels `"PURPLE"` and `"NOVEL"`. -/
theorem raw_labels_rendered_witness :
    (build_html sampleNow purpleBrief =
        threatPre sampleNow purpleBrief ++ "PURPLE" ++ threatPost sampleNow purpleBrief ∧
      tcOf (threatOf purpleBrief) = ⟨"#fff8e1", "#f9a825", "#f57f17"⟩ ∧
      idxOf (threatOf purpleBrief) = 1) ∧
    (sectionCard novelSection = badgePre novelSection ++ "NOVEL" ++ badgePost novelSection ∧
      sigColorOf novelSection = "#4a9eff") :=
  ⟨(raw_labels_rendered sampleNow purpleBrief).1 "PURPLE" rfl (by decide),
   (raw_labels_rendered sampleNow purpleBrief).2 novelSection "NOVEL" rfl (by decide)⟩

/-- Counterexample to C1 as stated: for the section whose `significance` is
the unrecognized label `"NOVEL"`, the renderer does not use the MEDIUM
accent colour `#ffd700` — the card is built with the fallback accent
`#4a9eff` and the MEDIUM colour occurs nowhere in it. -/
theorem sig_unrecognized_counterexample :
    sigColorOf novelSection = "#4a9eff" ∧
    (SIG_COLORS.lookup "MEDIUM").getD "" = "#ffd700" ∧
    sigColorOf novelSection ≠ "#ffd700" ∧
    occursIn "#ffd700".data (sectionCard novelSection).data = false := by
  refine ⟨by decide, by decide, by decide, by decide⟩

/-- C1 amended: a section with `significance` missing is rendered exactly
like one with `significance = "MEDIUM"`, using the MEDIUM accent colour
`#ffd700`; a section with an unrecognized `significance` keeps the raw
label and uses the fallback accent colour `#4a9eff` (not the MEDIUM
accent); neither case faults. -/
theorem sig_default_amended (s : Section ) :
    (s.significance = none →
      sigOf s = "MEDIUM" ∧ sigColorOf s = "#ffd700" ∧
      sectionCard s = sectionCard { s with significance := some "MEDIUM" }) ∧
    (∀ S, s.significance = some S → S ∉ sigKeys →
      sigOf s = S ∧ sigColorOf s = "#4a9eff") := by
  constructor
  · intro h
    have hm : sigOf s = "MEDIUM" := by simp [sigOf, h]
    refine ⟨hm, ?_, ?_⟩
    · rw [sigColorOf, hm]; decide
    · simp [sectionCard, sigOf, sigColorOf, h]
  · intro S hS hmem
    have hs : sigOf s = S := by simp [sigOf, hS]
    exact ⟨hs, by simp [sigColorOf, hs, lookup_sig_eq_none hmem]⟩

/-- Witness for the amended C1 at a bare section and at the `"NOVEL"`
section. -/
theorem sig_default_amended_witness :
    (sigOf bareSection = "MEDIUM" ∧ sigColorOf bareSection = "#ffd700" ∧
      sectionCard bareSection = sectionCard { bareSection with significance := some "MEDIUM" }) ∧
    (sigOf novelSection = "NOVEL" ∧ sigColorOf novelSection = "#4a9eff") :=
  ⟨(sig_default_amended bareSection).1 rfl,
   (sig_default_amended novelSection).2 "NOVEL" rfl (by decide)⟩

/-- C4: the sections region of the output is the concatenation of one card
per section in input order; within a card the actors region is one pill per
actor in input order (duplicates kept, since `map` is applied to the raw
list); the watch region is one row per watch item in input order. -/
theorem render_order_preserved :
    (∀ ss : List Section , sections_html ss = String.join (ss.map sectionCard)) ∧
    (∀ ss : List Section , (ss.map sectionCard).length = ss.length) ∧
    (∀ (now : DateTime) (b : Brief),
      build_html now b =
        secPre now b ++ String.join ((b.sections.getD []).map sectionCard) ++ secPost now b) ∧
    (∀ s : Section , sectionCard s =
      actorsPre s ++ String.intercalate " " ((s.actors.getD []).map actorTag) ++ actorsPost s) ∧
    (∀ l : List String, (l.map actorTag).length = l.length) ∧
    (∀ (now : DateTime) (b : Brief),
      build_html now b =
        watchPre now b ++ String.join ((b.watchItems.getD []).map watchRow) ++ watchPost now b) ∧
    (∀ l : List String, (l.map watchRow).length = l.length) := by
  refine ⟨sections_html_eq_join, by simp, ?_, ?_, by simp, ?_, by simp⟩
  · intro now b
    rw [build_html_sections_split, sections_html_eq_join]
  · intro s
    have hsp := sectionCard_actors_split s
    simpa [actors_html] using hsp
  · intro now b
    rw [build_html_watch_split]
    simp [watch_items_html]

lemma str_prefix_append_left {l : List Char} {x : String} (y : String)
    (h : l <+: x.data) : l <+: (x ++ y).data := by
  rw [String.data_append]
  exact h.trans (List.prefix_append _ _)

lemma str_suffix_append_right {l : List Char} {y : String} (x : String)
    (h : l <:+ y.data) : l <:+ (x ++ y).data := by
  rw [String.data_append]
  exact h.trans (List.suffix_append _ _)

/-- Counterexample to C5 as stated: an absent `classification` does not
render as the empty string.  The empty brief's HTML differs from the HTML
rendered when `classification` is present and empty, because the absent key
renders as the default label `UNCLASSIFIED` (line 184). -/
theorem absent_field_counterexample :
    build_html sampleNow emptyBrief ≠
      build_html sampleNow { emptyBrief with classification := some "" } ∧
    occursIn "UNCLASSIFIED".data (build_html sampleNow emptyBrief).data = true := by
  exact ⟨by decide, by decide⟩

/-- C5 amended: for any brief with any subset of keys absent, `build_html`
still returns a complete HTML document (it always starts with
`<!DOCTYPE html>` and ends with `</html>`) without faulting, and every
absent key renders exactly as its default: the empty string for `summary`,
`threatRationale`, `analystNote` (and the unused `date`), the empty list
for `sections` and `watchItems`, `"MODERATE"` for `threatLevel`,
`"UNCLASSIFIED"` for `classification`, and per section the empty string for
`domain`, `headline`, `body`, `sourceHint` (and the unused `id`), the empty
list for `actors`, and `"MEDIUM"` for `significance`. -/
theorem absent_fields_amended (now : DateTime) (b : Brief) :
    "<!DOCTYPE html>".data <+: (build_html now b).data ∧
    "</html>".data <:+ (build_html now b).data ∧
    build_html now { b with date := none } = build_html now { b with date := some "" } ∧
    build_html now { b with classification := none } =
      build_html now { b with classification := some "UNCLASSIFIED" } ∧
    build_html now { b with summary := none } = build_html now { b with summary := some "" } ∧
    build_html now { b with threatLevel := none } =
      build_html now { b with threatLevel := some "MODERATE" } ∧
    build_html now { b with threatRationale := none } =
      build_html now { b with threatRationale := some "" } ∧
    build_html now { b with sections := none } =
      build_html now { b with sections := some [] } ∧
    build_html now { b with watchItems := none } =
      build_html now { b with watchItems := some [] } ∧
    build_html now { b with analystNote := none } =
      build_html now { b with analystNote := some "" } ∧
    (∀ s : Section ,
      sectionCard { s with id := none } = sectionCard { s with id := some "" } ∧
      sectionCard { s with domain := none } = sectionCard { s with domain := some "" } ∧
      sectionCard { s with headline := none } = sectionCard { s with headline := some "" } ∧
      sectionCard { s with body := none } = sectionCard { s with body := some "" } ∧
      sectionCard { s with significance := none } =
        sectionCard { s with significance := some "MEDIUM" } ∧
      sectionCard { s with actors := none } = sectionCard { s with actors := some [] } ∧
      sectionCard { s with sourceHint := none } = sectionCard { s with sourceHint := some "" }) := by
  refine ⟨?_, ?_, rfl, rfl, rfl, rfl, rfl, rfl, rfl, rfl,
    fun s => ⟨rfl, rfl, rfl, rfl, rfl, rfl, rfl⟩⟩
  · simp only [build_html]
    iterate 32 (apply str_prefix_append_left)
    decide
  · simp only [build_html]
    apply str_suffix_append_right
    decide

/-- C6: when the cleaned response text does not parse as JSON, `fetch_brief`
raises (models the uncaught `json.JSONDecodeError` of line 110), the run
aborts, and the trace of the run contains no SMTP send — so no email is
sent and the rendered HTML never leaves the process. -/
theorem malformed_json_aborts (w : World)
    (h : w.loads (cleanText w.responseText) = none) :
    fetch_brief w =
      Except.error ("json.decoder.JSONDecodeError: " ++ cleanText w.responseText) ∧
    ((runProcess w).1.all fun c => !isSend c) = true ∧
    (runProcess w).2.isOk = false := by
  have hf : fetch_brief w =
      Except.error ("json.decoder.JSONDecodeError: " ++ cleanText w.responseText) := by
    simp [fetch_brief, h]
  refine ⟨hf, ?_, ?_⟩
  · cases hc : loadConfig w.env <;> simp [runProcess, hc, hf, isSend]
  · cases hc : loadConfig w.env <;> simp [runProcess, hc, hf, Except.isOk, Except.toBool]

/-- A world whose inference response is not JSON (`json.loads` fails on
every input) but whose environment is fully populated. -/
def badJsonWorld : World :=
  { env := fun _ => some "x", responseText := "this is not json",
    loads := fun _ => none, now := sampleNow }

/-- Witness for C6 at `badJsonWorld`. -/
theorem malformed_json_aborts_witness :
    fetch_brief badJsonWorld =
      Except.error ("json.decoder.JSONDecodeError: " ++ cleanText badJsonWorld.responseText) ∧
    ((runProcess badJsonWorld).1.all fun c => !isSend c) = true ∧
    (runProcess badJsonWorld).2.isOk = false :=
  malformed_json_aborts badJsonWorld rfl

/-- C8: if any of the three required secrets is absent from the environment,
module loading fails (the `os.environ[...]` subscription raises `KeyError`
at start-up) and the run makes no network call at all. -/
theorem missing_secret_fails_before_network (w : World)
    (h : w.env "GMAIL_USER" = none ∨ w.env "GMAIL_APP_PASSWORD" = none ∨
      w.env "ANTHROPIC_API_KEY" = none) :
    (∃ e, loadConfig w.env = Except.error e) ∧
    (runProcess w).1 = [] ∧
    (runProcess w).2.isOk = false := by
  have hcfg : ∃ e, loadConfig w.env = Except.error e := by
    rcases h with h | h | h
    · exact ⟨"KeyError: GMAIL_USER", by simp [loadConfig, h]⟩
    · cases hu : w.env "GMAIL_USER" with
      | none => exact ⟨"KeyError: GMAIL_USER", by simp [loadConfig, hu]⟩
      | some u => exact ⟨"KeyError: GMAIL_APP_PASSWORD", by simp [loadConfig, hu, h]⟩
    · cases hu : w.env "GMAIL_USER" with
      | none => exact ⟨"KeyError: GMAIL_USER", by simp [loadConfig, hu]⟩
      | some u =>
        cases hp : w.env "GMAIL_APP_PASSWORD" with
        | none => exact ⟨"KeyError: GMAIL_APP_PASSWORD", by simp [loadConfig, hu, hp]⟩
        | some p => exact ⟨"KeyError: ANTHROPIC_API_KEY", by simp [loadConfig, hu, hp, h]⟩
  obtain ⟨e, he⟩ := hcfg
  exact ⟨⟨e, he⟩, by simp [runProcess, he], by simp [runProcess, he, Except.isOk, Except.toBool]⟩

/-- A world with an empty environment. -/
def noSecretWorld : World :=
  { env := fun _ => none, responseText := "", loads := fun _ => none, now := sampleNow }

/-- Witness for C8 at `noSecretWorld`. -/
theorem missing_secret_fails_before_network_witness :
    (∃ e, loadConfig noSecretWorld.env = Except.error e) ∧
    (runProcess noSecretWorld).1 = [] ∧
    (runProcess noSecretWorld).2.isOk = false :=
  missing_secret_fails_before_network noSecretWorld (Or.inl rfl)

lemma removeAll_ticks_head {l r : List Char}
    (h : removeAll '`' ['`', '`'] l = '`' :: r) : ∃ l1, l = '`' :: l1 := by
  match l with
  | [] => simp [removeAll] at h
  | c :: cs =>
    simp only [removeAll] at h
    split at h
    case isTrue hp =>
      rcases List.cons_prefix_cons.mp (List.isPrefixOf_iff_prefix.mp hp) with ⟨hc, _⟩
      exact ⟨cs, by rw [← hc]⟩
    case isFalse hp =>
      injection h with h1 _
      exact ⟨cs, by rw [h1]⟩

lemma removeAll_ticks_head2 {l r : List Char}
    (h : removeAll '`' ['`', '`'] l = '`' :: '`' :: r) : ∃ l2, l = '`' :: '`' :: l2 := by
  match l with
  | [] => simp [removeAll] at h
  | c :: cs =>
    simp only [removeAll] at h
    split at h
    case isTrue hp =>
      rcases List.cons_prefix_cons.mp (List.isPrefixOf_iff_prefix.mp hp) with ⟨hc, hrest⟩
      cases cs with
      | nil =>
        rcases hrest with ⟨t, ht⟩
        simp at ht
      | cons d ds =>
        rcases List.cons_prefix_cons.mp hrest with ⟨hd, _⟩
        exact ⟨ds, by rw [← hc, ← hd]⟩
    case isFalse hp =>
      injection h with h1 h2
      rcases removeAll_ticks_head h2 with ⟨l1, hl1⟩
      exact ⟨l1, by rw [h1, hl1]⟩

/-- After the second `replace` pass of line 109 no occurrence of three
consecutive backticks remains, whatever the input. -/
lemma removeAll_ticks_no_triple (l : List Char) :
    ¬ (['`', '`', '`'] <:+: removeAll '`' ['`', '`'] l) := by
  have main : ∀ (n : Nat) (l : List Char), l.length ≤ n →
      ¬ (['`', '`', '`'] <:+: removeAll '`' ['`', '`'] l) := by
    intro n
    induction n with
    | zero =>
      intro l hl hinf
      have hnil : l = [] := List.length_eq_zero.mp (Nat.le_zero.mp hl)
      subst hnil
      simp only [removeAll] at hinf
      exact absurd hinf (by decide)
    | succ n ih =>
      intro l hl hinf
      rcases l with _ | ⟨c, cs⟩
      · simp only [removeAll] at hinf
        exact absurd hinf (by decide)
      · simp only [removeAll] at hinf
        simp only [List.length_cons, Nat.add_le_add_iff_right] at hl
        split at hinf
        case isTrue hp =>
          refine ih _ ?_ hinf
          simp only [List.length_drop]
          omega
        case isFalse hp =>
          rcases List.infix_cons_iff.mp hinf with hpre | hinf2
          · rcases List.cons_prefix_cons.mp hpre with ⟨hc, hpre2⟩
            rcases hpre2 with ⟨r, hr⟩
            have h2 : removeAll '`' ['`', '`'] cs = '`' :: '`' :: r := hr.symm
            rcases removeAll_ticks_head2 h2 with ⟨l2, hl2⟩
            apply hp
            rw [← hc, hl2]
            simp [List.isPrefixOf]
          · exact ih cs hl hinf2
  exact main l.length l le_rfl

lemma occursIn_iff (pat l : List Char) : occursIn pat l = true ↔ pat <:+: l := by
  induction l with
  | nil =>
    simp only [occursIn, List.isEmpty_iff, List.infix_nil]
  | cons c cs ih =>
    simp only [occursIn, Bool.or_eq_true, List.isPrefixOf_iff_prefix, ih,
      List.infix_cons_iff]

lemma pyStrip_infix (l : List Char) : pyStrip l <:+: l := by
  unfold pyStrip
  have h1 : l.dropWhile pyIsSpace <:+ l := List.dropWhile_suffix _
  have h2 : ((l.dropWhile pyIsSpace).reverse.dropWhile pyIsSpace).reverse <+:
      l.dropWhile pyIsSpace := by
    apply List.reverse_suffix.mp
    rw [List.reverse_reverse]
    exact List.dropWhile_suffix _
  exact h2.isInfix.trans h1.isInfix

lemma cleanText_no_triple (s : String) :
    ¬ (['`', '`', '`'] <:+: (cleanText s).data) := by
  intro h
  have hstrip :
      pyStrip (removeAll '`' ['`', '`']
        (removeAll '`' ['`', '`', 'j', 's', 'o', 'n'] s.data)) <:+:
      removeAll '`' ['`', '`'] (removeAll '`' ['`', '`', 'j', 's', 'o', 'n'] s.data) :=
    pyStrip_infix _
  exact removeAll_ticks_no_triple _ (h.trans hstrip)

/-- C9: the fence stripping of line 109 deletes every occurrence of
```` ```json ```` and ```` ``` ```` anywhere in the response text — after
cleaning, no occurrence of either substring remains, for any input
whatsoever (not merely a well-formed enclosing fence pair); consequently a
JSON payload that itself contains triple backticks inside a string value
loses them before parsing, as the concrete example shows. -/
theorem fence_strip_global :
    (∀ s : String,
      occursIn ['`', '`', '`'] (cleanText s).data = false ∧
      occursIn ['`', '`', '`', 'j', 's', 'o', 'n'] (cleanText s).data = false) ∧
    cleanText "\x7b\"summary\": \"use ``` fences\"\x7d" =
      "\x7b\"summary\": \"use  fences\"\x7d" ∧
    cleanText "```json\x7b\"a\": 1\x7d```" = "\x7b\"a\": 1\x7d" := by
  refine ⟨?_, ?_, ?_⟩
  · intro s
    have h3 := cleanText_no_triple s
    constructor
    · rw [← Bool.not_eq_true, occursIn_iff]
      exact h3
    · rw [← Bool.not_eq_true, occursIn_iff]
      intro h7
      exact h3 ((by decide : (['`', '`', '`'] : List Char) <:+:
        ['`', '`', '`', 'j', 's', 'o', 'n']).trans h7)
  · simp [cleanText, removeAll, List.isPrefixOf, pyStrip, pyIsSpace]
  · simp [cleanText, removeAll, List.isPrefixOf, pyStrip, pyIsSpace]
